import Mathlib

/-!
Shallow embedding of the r-helper device-reconciliation core
(src/messaging.rs, src/utils.rs, src/power/mod.rs, src/device/mod.rs,
src/ui/lighting.rs and the scheduler methods of src/main.rs), together
with theorems settling the specification claims.

Time is modelled as an explicit `now : Nat` parameter in milliseconds;
`Instant::now()` at a call site becomes that parameter, and
`timestamp.elapsed()` becomes `now - timestamp`.  Device I/O is modelled
by an oracle record giving, for the duration of one operation, the result
each collaborator call returns; performed writes are collected in an
explicit event trace.
-/

-- ===========================================================================
-- messaging.rs
-- ===========================================================================

/-- `MessageType` from src/messaging.rs. -/
inductive MessageType
  | Info
  | Error
deriving DecidableEq

/-- `MessagePriority` from src/messaging.rs. -/
inductive MessagePriority
  | Normal
  | Critical
deriving DecidableEq

/-- `UserMessage` from src/messaging.rs; `timestamp` and `duration` in ms. -/
structure UserMessage where
  content : String
  message_type : MessageType
  timestamp : Nat
  duration : Nat
deriving DecidableEq

/-- `UserMessage::new`: duration 3s for Normal, 8s for Critical. -/
def UserMessage.new (content : String) (message_type : MessageType)
    (priority : MessagePriority) (now : Nat) : UserMessage :=
  { content := content
    message_type := message_type
    timestamp := now
    duration := match priority with
      | MessagePriority.Normal => 3000
      | MessagePriority.Critical => 8000 }

/-- `timestamp.elapsed()` in ms at the given instant. -/
def UserMessage.elapsed (m : UserMessage) (now : Nat) : Nat :=
  now - m.timestamp

/-- `UserMessage::is_expired`: elapsed > duration + 2100 ms fade tail. -/
def UserMessage.is_expired (m : UserMessage) (now : Nat) : Bool :=
  decide (m.elapsed now > m.duration + 2100)

/-- `UserMessage::should_fade`: elapsed > duration. -/
def UserMessage.should_fade (m : UserMessage) (now : Nat) : Bool :=
  decide (m.elapsed now > m.duration)

/-- `messaging::status_message`: Info content with Normal priority. -/
def status_message (content : String) (now : Nat) : UserMessage :=
  UserMessage.new content MessageType.Info MessagePriority.Normal now

/-- `messaging::error_message`: Error content with Critical priority. -/
def error_message (content : String) (now : Nat) : UserMessage :=
  UserMessage.new content MessageType.Error MessagePriority.Critical now

/-- `MessageManager` from src/messaging.rs. -/
structure MessageManager where
  current_message : Option UserMessage
  message_queue : List UserMessage
deriving DecidableEq

/-- `MessageManager::new`. -/
def MessageManager.new : MessageManager :=
  { current_message := none, message_queue := [] }

/-- `MessageManager::cleanup_queue`: drop expired entries, then
`truncate(10)` (keep the first ten) when more than ten remain. -/
def MessageManager.cleanup_queue (mm : MessageManager) (now : Nat) :
    MessageManager :=
  let q := mm.message_queue.filter (fun m => !(m.is_expired now))
  let q := if q.length > 10 then q.take 10 else q
  { mm with message_queue := q }

/-- The push phase of `MessageManager::add_message`: the current message is
appended to the queue only when `age_seconds() < 3.0` and it is not
expired. -/
def MessageManager.push_current (mm : MessageManager) (now : Nat) :
    MessageManager :=
  match mm.current_message with
  | some current =>
      if current.elapsed now < 3000 && !(current.is_expired now) then
        { mm with message_queue := mm.message_queue ++ [current] }
      else mm
  | none => mm

/-- `MessageManager::add_message`: push the displaced current message per
the rule above, install the new message instantly, then clean the queue. -/
def MessageManager.add_message (mm : MessageManager) (message : UserMessage)
    (now : Nat) : MessageManager :=
  ({ mm.push_current now with current_message := some message }).cleanup_queue
    now

/-- `MessageManager::get_current_message`: the current message unless it is
expired. -/
def MessageManager.get_current_message (mm : MessageManager) (now : Nat) :
    Option UserMessage :=
  match mm.current_message with
  | some current => if current.is_expired now then none else some current
  | none => none

/-- The pop-until-fresh loop of `MessageManager::promote_next_message`,
acting on the queue with its most recent entry first: skip (discard)
expired entries and return the first non-expired one with the remainder. -/
def promoteFrom (now : Nat) : List UserMessage →
    Option UserMessage × List UserMessage
  | [] => (none, [])
  | m :: rest =>
      if m.is_expired now then promoteFrom now rest else (some m, rest)

/-- `MessageManager::promote_next_message`: pop from the queue end until a
non-expired message is found; it becomes current, popped expired entries
are discarded. -/
def MessageManager.promote_next_message (mm : MessageManager) (now : Nat) :
    MessageManager :=
  let r := promoteFrom now mm.message_queue.reverse
  { current_message :=
      match r.1 with
      | some m => some m
      | none => mm.current_message
    message_queue := r.2.reverse }

/-- `MessageManager::update`: if the current message expired, clear it and
promote; if there is no current message, promote. -/
def MessageManager.update (mm : MessageManager) (now : Nat) : MessageManager :=
  match mm.current_message with
  | some current =>
      if current.is_expired now then
        ({ mm with current_message := none }).promote_next_message now
      else mm
  | none => mm.promote_next_message now

-- ===========================================================================
-- librazer collaborator types (external crate, consumed interface)
-- ===========================================================================

/-- `librazer::types::PerfMode` as used by the app (includes the `Custom`
and `Battery` variants referenced in src/main.rs). -/
inductive PerfMode
  | Silent
  | Balanced
  | Performance
  | Battery
  | Custom
deriving DecidableEq

/-- `PerfMode::iter()`: the full enum universe, in declaration order. -/
def PerfMode.iter : List PerfMode :=
  [PerfMode.Silent, PerfMode.Balanced, PerfMode.Performance,
   PerfMode.Battery, PerfMode.Custom]

/-- `librazer::types::FanMode`. -/
inductive FanMode
  | Auto
  | Manual
deriving DecidableEq

/-- `librazer::types::LogoMode`. -/
inductive LogoMode
  | Static
  | Breathing
  | Off
deriving DecidableEq

/-- `librazer::types::LightsAlwaysOn`. -/
inductive LightsAlwaysOn
  | Enable
  | Disable
deriving DecidableEq

/-- `librazer::types::BatteryCare`. -/
inductive BatteryCare
  | Enable
  | Disable
deriving DecidableEq

/-- Device-write events, recorded in order of the underlying `set_*`
collaborator calls (attempted writes are recorded whether or not the call
succeeds, since the command was issued to the hardware); `sleep` records a
`std::thread::sleep` settle delay in ms. -/
inductive DevEvent
  | setPerfMode (m : PerfMode)
  | setFanMode (m : FanMode)
  | setFanRpm (rpm : Nat)
  | setLogoMode (m : LogoMode)
  | setKeyboardBrightness (b : Nat)
  | setLightsAlwaysOn (v : LightsAlwaysOn)
  | setBatteryCare (v : BatteryCare)
  | sleep (ms : Nat)
deriving DecidableEq

/-- Oracle for one open handle of `librazer::device::Device` together with
the `command::*` calls made through it: each field gives the result the
collaborator returns for that call during the operation being modelled.
`info_perf_modes` is `device.info().perf_modes`, the optional authoritative
supported-mode list from the device descriptor. -/
structure Device where
  info_perf_modes : Option (List PerfMode)
  get_perf_mode : Except String (PerfMode × FanMode)
  get_fan_rpm : Except String Nat
  get_fan_actual_rpm : Except String Nat
  get_logo_mode : Except String LogoMode
  get_keyboard_brightness : Except String Nat
  get_lights_always_on : Except String LightsAlwaysOn
  get_battery_care : Except String BatteryCare
  set_perf_mode : PerfMode → Except String Unit
  set_fan_mode : FanMode → Except String Unit
  set_fan_rpm : Nat → Except String Unit
  set_logo_mode : LogoMode → Except String Unit
  set_keyboard_brightness : Nat → Except String Unit
  set_lights_always_on : LightsAlwaysOn → Except String Unit
  set_battery_care : BatteryCare → Except String Unit

-- ===========================================================================
-- utils.rs
-- ===========================================================================

/-- `utils::execute_device_command_simple`: run a device command if a device
is connected, yielding the success message or the error label joined with err, and
`No device connected` when there is no device. -/
def execute_device_command_simple (device_opt : Option Device)
    (command : Device → Except String Unit)
    (success_msg error_label : String) : Except String String :=
  match device_opt with
  | some device =>
      match command device with
      | Except.ok _ => Except.ok success_msg
      | Except.error e => Except.error (error_label ++ ": " ++ e)
  | none => Except.error "No device connected"

/-- `utils::DeviceStateReader`: accumulated diagnostics of a batch read. -/
structure DeviceStateReader where
  errors : List String
deriving DecidableEq

/-- `DeviceStateReader::new`. -/
def DeviceStateReader.new : DeviceStateReader :=
  { errors := [] }

/-- `DeviceStateReader::read`: a successful operation yields its value; a
failure yields `none` and records `Failed to read name: err`. -/
def DeviceStateReader.read {α : Type} (r : DeviceStateReader)
    (operation : Except String α) (operation_name : String) :
    Option α × DeviceStateReader :=
  match operation with
  | Except.ok value => (some value, r)
  | Except.error e =>
      (none,
       { errors := r.errors ++ ["Failed to read " ++ operation_name ++ ": " ++ e] })

/-- `DeviceStateReader::finish`: returns the accumulated diagnostics. -/
def DeviceStateReader.finish (r : DeviceStateReader) : List String :=
  r.errors

/-- A batch of named reads performed through one `DeviceStateReader`, as the
callers in src/main.rs do: threads the reader through every operation and
collects the per-field results. -/
def runReads {α : Type} (r : DeviceStateReader)
    (ops : List (String × Except String α)) :
    List (Option α) × DeviceStateReader :=
  match ops with
  | [] => ([], r)
  | (name, op) :: rest =>
      let step := r.read op name
      let tail := runReads step.2 rest
      (step.1 :: tail.1, tail.2)

-- ===========================================================================
-- power/mod.rs
-- ===========================================================================

/-- The Windows `SYSTEM_POWER_STATUS` fields the app reads. -/
structure SystemPowerStatus where
  ACLineStatus : Nat
deriving DecidableEq

/-- Outcome of the `GetSystemPowerStatus` OS call. -/
inductive PowerStatusResult
  | ok (status : SystemPowerStatus)
  | error
deriving DecidableEq

/-- `power::get_power_state` (Windows build): `Ok(ACLineStatus == 1)` when
the OS call succeeds, `Ok(true)` when it fails. -/
def get_power_state (os : PowerStatusResult) : Except String Bool :=
  match os with
  | PowerStatusResult.ok status => Except.ok (status.ACLineStatus == 1)
  | PowerStatusResult.error => Except.ok true

/-- `power::get_power_state` (non-Windows build): always `Ok(true)`. -/
def get_power_state_non_windows : Except String Bool :=
  Except.ok true

-- ===========================================================================
-- ui/lighting.rs brightness helpers
-- ===========================================================================

/-- `ui::lighting::BRIGHTNESS_LEVELS`. -/
def BRIGHTNESS_LEVELS : List Nat :=
  [0, 13, 28, 43, 59, 74, 89, 105, 120, 133, 148, 163, 179, 194, 209, 225]

/-- Fold step for the argmin in `raw_brightness_to_step_index`: keep the
earliest index whose level is nearest (Rust `min_by_key` keeps the first of
equal minima). -/
def brightnessArgmin (b : Nat) (acc : Nat × Nat × Nat) (level : Nat) :
    Nat × Nat × Nat :=
  let idx := acc.1
  let d := ((level : Int) - (b : Int)).natAbs
  if d < acc.2.2 then (idx + 1, idx, d) else (idx + 1, acc.2.1, acc.2.2)

/-- `ui::lighting::raw_brightness_to_step_index`: index of the supported
level closest to the raw brightness, the first such index on ties. -/
def raw_brightness_to_step_index (brightness : Nat) : Nat :=
  (BRIGHTNESS_LEVELS.foldl (brightnessArgmin brightness) (0, 0, 100000)).2.1

-- ===========================================================================
-- device/mod.rs
-- ===========================================================================

/-- `device::CompleteDeviceState`. -/
structure CompleteDeviceState where
  perf_mode : PerfMode
  fan_mode : FanMode
  fan_rpm : Option Nat
  logo_mode : LogoMode
  keyboard_brightness : Nat
  lights_always_on : LightsAlwaysOn
  battery_care : BatteryCare
deriving DecidableEq

/-- `CompleteDeviceState::default()`. -/
def CompleteDeviceState.default : CompleteDeviceState :=
  { perf_mode := PerfMode.Performance
    fan_mode := FanMode.Auto
    fan_rpm := none
    logo_mode := LogoMode.Off
    keyboard_brightness := 50
    lights_always_on := LightsAlwaysOn.Disable
    battery_care := BatteryCare.Enable }

/-- `CompleteDeviceState::read_from_device`: every read is propagated with
`?`; the RPM is read only in manual fan mode. -/
def CompleteDeviceState.read_from_device (device : Device) :
    Except String CompleteDeviceState := do
  let (perf_mode, fan_mode) ← device.get_perf_mode
  let fan_rpm ← match fan_mode with
    | FanMode.Manual => do
        let rpm ← device.get_fan_rpm
        pure (some rpm)
    | FanMode.Auto => pure (none : Option Nat)
  let logo_mode ← device.get_logo_mode
  let keyboard_brightness ← device.get_keyboard_brightness
  let lights_always_on ← device.get_lights_always_on
  let battery_care ← device.get_battery_care
  pure { perf_mode := perf_mode
         fan_mode := fan_mode
         fan_rpm := fan_rpm
         logo_mode := logo_mode
         keyboard_brightness := keyboard_brightness
         lights_always_on := lights_always_on
         battery_care := battery_care }

-- ===========================================================================
-- main.rs: app state and conversions
-- ===========================================================================

/-- `RazerGuiApp::perf_mode_to_string`: the Debug name of the mode. -/
def perf_mode_to_string : PerfMode → String
  | PerfMode.Silent => "Silent"
  | PerfMode.Balanced => "Balanced"
  | PerfMode.Performance => "Performance"
  | PerfMode.Battery => "Battery"
  | PerfMode.Custom => "Custom"

/-- `RazerGuiApp::string_to_perf_mode`: find the mode whose Debug name
matches. -/
def string_to_perf_mode (mode : String) : Option PerfMode :=
  PerfMode.iter.find? (fun m => perf_mode_to_string m == mode)

/-- `RazerGuiApp::logo_mode_to_string`. -/
def logo_mode_to_string : LogoMode → String
  | LogoMode.Static => "Static"
  | LogoMode.Breathing => "Breathing"
  | LogoMode.Off => "Off"

/-- `RazerGuiApp::string_to_logo_mode`. -/
def string_to_logo_mode (mode : String) : Option LogoMode :=
  if mode = "Static" then some LogoMode.Static
  else if mode = "Breathing" then some LogoMode.Breathing
  else if mode = "Off" then some LogoMode.Off
  else none

/-- `main::get_fan_rpm_set`: the configured (SET) RPM, `None` on error. -/
def get_fan_rpm_set (device : Device) : Option Nat :=
  match device.get_fan_rpm with
  | Except.ok rpm => some rpm
  | Except.error _ => none

/-- `main::get_fan_rpm_actual`: the live measured RPM, `None` on error. -/
def get_fan_rpm_actual (device : Device) : Option Nat :=
  match device.get_fan_actual_rpm with
  | Except.ok rpm => some rpm
  | Except.error _ => none

/-- `RazerGuiApp::read_current_fan_state`: read the fan mode with one
retry, defaulting to Auto when both attempts fail, together with the
configured RPM. -/
def read_current_fan_state (device : Device) : FanMode × Option Nat :=
  let fan_mode := match device.get_perf_mode with
    | Except.ok (_, fm) => fm
    | Except.error _ =>
        match device.get_perf_mode with
        | Except.ok (_, fm) => fm
        | Except.error _ => FanMode.Auto
  (fan_mode, get_fan_rpm_set device)

/-- `RazerGuiApp::get_fan_status_from_mode`. -/
def get_fan_status_from_mode (fan_mode : FanMode) (device : Device) :
    String × Option Nat :=
  match fan_mode with
  | FanMode.Auto => ("Auto", none)
  | FanMode.Manual => ("Manual", get_fan_rpm_set device)

/-- `main::DeviceStatus` (the UI-thread-owned snapshot). -/
structure DeviceStatus where
  performance_mode : String
  fan_speed : String
  fan_rpm : Option Nat
  fan_actual_rpm : Option Nat
  logo_mode : String
  keyboard_brightness : Nat
  lights_always_on : Bool
  battery_care : Bool
deriving DecidableEq

/-- `DeviceStatus::default()`. -/
def DeviceStatus.default : DeviceStatus :=
  { performance_mode := "Reading..."
    fan_speed := "Reading..."
    fan_rpm := none
    fan_actual_rpm := none
    logo_mode := "Reading..."
    keyboard_brightness := 0
    lights_always_on := false
    battery_care := true }

/-- The fields of `main::RazerGuiApp` that the reconciliation logic under
verification reads or writes (timers, egui handles and channel receivers
are represented by the explicit `now` and delivery parameters of the
individual operations). -/
structure RazerGuiApp where
  status : DeviceStatus
  device : Option Device
  device_state : Option CompleteDeviceState
  available_performance_modes : List PerfMode
  ac_power : Bool
  ac_profile : CompleteDeviceState
  battery_profile : CompleteDeviceState
  message_manager : MessageManager
  status_messages : Bool
  manual_fan_rpm : Nat
  temp_brightness_step : Nat
  brightness_slider_active : Bool

/-- `RazerGuiApp::set_status_message`: post a Normal-priority message. -/
def RazerGuiApp.set_status_message (app : RazerGuiApp) (message : String)
    (now : Nat) : RazerGuiApp :=
  { app with
    message_manager := app.message_manager.add_message
      (status_message message now) now }

/-- `RazerGuiApp::set_optional_status_message`: post only when the
verbosity flag is on. -/
def RazerGuiApp.set_optional_status_message (app : RazerGuiApp)
    (message : String) (now : Nat) : RazerGuiApp :=
  if app.status_messages then app.set_status_message message now else app

/-- `RazerGuiApp::set_error_message`: post a Critical-priority message. -/
def RazerGuiApp.set_error_message (app : RazerGuiApp) (message : String)
    (now : Nat) : RazerGuiApp :=
  { app with
    message_manager := app.message_manager.add_message
      (error_message message now) now }

/-- `RazerGuiApp::set_no_device_message`. -/
def RazerGuiApp.set_no_device_message (app : RazerGuiApp) (now : Nat) :
    RazerGuiApp :=
  app.set_status_message "No device connected" now

/-- `RazerGuiApp::update_stored_device_state`: refresh the baseline from
the live device, keeping the old baseline when the read fails. -/
def RazerGuiApp.update_stored_device_state (app : RazerGuiApp) :
    RazerGuiApp :=
  match app.device with
  | some device =>
      match CompleteDeviceState.read_from_device device with
      | Except.ok current_state => { app with device_state := some current_state }
      | Except.error _ => app
  | none => app

/-- `RazerGuiApp::read_device_status` on the unwrapped device handle; the
Bool is `true` when it returns `Ok` (it propagates only the
performance-mode read error, all later reads are best-effort). -/
def RazerGuiApp.read_device_status (app : RazerGuiApp) (device : Device) :
    RazerGuiApp × Bool :=
  match device.get_perf_mode with
  | Except.error _ => (app, false)
  | Except.ok (perf_mode, fan_mode) =>
      let app := { app with status :=
        { app.status with performance_mode := perf_mode_to_string perf_mode } }
      let fs := get_fan_status_from_mode fan_mode device
      let app := { app with status :=
        { app.status with fan_speed := fs.1, fan_rpm := fs.2 } }
      let app := match fs.2 with
        | some rpm => { app with manual_fan_rpm := rpm }
        | none => app
      let app := { app with status :=
        { app.status with fan_actual_rpm := get_fan_rpm_actual device } }
      let app := match device.get_logo_mode with
        | Except.ok lm => { app with status :=
            { app.status with logo_mode := logo_mode_to_string lm } }
        | Except.error _ => app
      let app := match device.get_keyboard_brightness with
        | Except.ok b => { app with
            status := { app.status with keyboard_brightness := b },
            temp_brightness_step := raw_brightness_to_step_index b }
        | Except.error _ => app
      let app := match device.get_lights_always_on with
        | Except.ok v => { app with status :=
            { app.status with lights_always_on := v == LightsAlwaysOn.Enable } }
        | Except.error _ => app
      let app := match device.get_battery_care with
        | Except.ok v => { app with status :=
            { app.status with battery_care := v == BatteryCare.Enable } }
        | Except.error _ => app
      (app, true)

/-- `RazerGuiApp::sync_ui_with_device_state`: best-effort refresh of
brightness (unless the slider is active), fan state and toggles. -/
def RazerGuiApp.sync_ui_with_device_state (app : RazerGuiApp) :
    RazerGuiApp :=
  match app.device with
  | none => app
  | some device =>
      let app :=
        if !app.brightness_slider_active then
          match device.get_keyboard_brightness with
          | Except.ok b => { app with
              status := { app.status with keyboard_brightness := b },
              temp_brightness_step := raw_brightness_to_step_index b }
          | Except.error _ => app
        else app
      let fm := read_current_fan_state device
      let fs := get_fan_status_from_mode fm.1 device
      let app := { app with status :=
        { app.status with fan_speed := fs.1, fan_rpm := fs.2 } }
      let app := match fm.2 with
        | some rpm => { app with manual_fan_rpm := rpm }
        | none => app
      let app := match device.get_lights_always_on with
        | Except.ok v => { app with status :=
            { app.status with lights_always_on := v == LightsAlwaysOn.Enable } }
        | Except.error _ => app
      let app := match device.get_battery_care with
        | Except.ok v => { app with status :=
            { app.status with battery_care := v == BatteryCare.Enable } }
        | Except.error _ => app
      app

-- ===========================================================================
-- main.rs: profile application and auto switching
-- ===========================================================================

/-- `RazerGuiApp::apply_profile`: apply all profile fields in the fixed
source order (performance mode, logo mode, keyboard brightness guarded by
the current reading, lights-always-on, battery care), aborting at the
first failing write; the trace records every attempted write. -/
def apply_profile (device : Device) (profile : CompleteDeviceState) :
    Except String Unit × List DevEvent :=
  let t1 := [DevEvent.setPerfMode profile.perf_mode]
  match device.set_perf_mode profile.perf_mode with
  | Except.error e => (Except.error e, t1)
  | Except.ok _ =>
    let t2 := t1 ++ [DevEvent.setLogoMode profile.logo_mode]
    match device.set_logo_mode profile.logo_mode with
    | Except.error e => (Except.error e, t2)
    | Except.ok _ =>
      let bstep : Except String Unit × List DevEvent :=
        match device.get_keyboard_brightness with
        | Except.ok current_brightness =>
            if current_brightness ≠ profile.keyboard_brightness then
              (device.set_keyboard_brightness profile.keyboard_brightness,
               t2 ++ [DevEvent.setKeyboardBrightness profile.keyboard_brightness])
            else (Except.ok (), t2)
        | Except.error _ =>
            (device.set_keyboard_brightness profile.keyboard_brightness,
             t2 ++ [DevEvent.setKeyboardBrightness profile.keyboard_brightness])
      match bstep.1 with
      | Except.error e => (Except.error e, bstep.2)
      | Except.ok _ =>
        let t3 := bstep.2 ++ [DevEvent.setLightsAlwaysOn profile.lights_always_on]
        match device.set_lights_always_on profile.lights_always_on with
        | Except.error e => (Except.error e, t3)
        | Except.ok _ =>
          let t4 := t3 ++ [DevEvent.setBatteryCare profile.battery_care]
          match device.set_battery_care profile.battery_care with
          | Except.error e => (Except.error e, t4)
          | Except.ok _ => (Except.ok (), t4)

/-- `RazerGuiApp::auto_switch_profile`: apply the performance mode of
the selected profile first; on success attempt a full read, falling back to
full profile application when that read fails, then refresh the baseline
and the UI.  `none` models the panic of the unconditional
`self.device.as_ref().unwrap()` inside `read_device_status` when no
device is present. -/
def RazerGuiApp.auto_switch_profile (app : RazerGuiApp) (now : Nat) :
    Option (RazerGuiApp × List DevEvent) :=
  match app.device with
  | none => none
  | some device =>
      let target_profile :=
        if app.ac_power then app.ac_profile else app.battery_profile
      let profile_name := if app.ac_power then "AC" else "Battery"
      let t1 := [DevEvent.setPerfMode target_profile.perf_mode]
      match device.set_perf_mode target_profile.perf_mode with
      | Except.error e =>
          some (app.set_error_message
            ("Failed to switch to " ++ profile_name ++ " profile: " ++ e) now, t1)
      | Except.ok _ =>
          let app := { app with status := { app.status with
            performance_mode := perf_mode_to_string target_profile.perf_mode } }
          let app := app.set_status_message
            ("⚡ Auto-switched to " ++ profile_name ++ " profile") now
          let rds := app.read_device_status device
          let step :=
            if rds.2 then (rds.1, t1)
            else
              let ap := apply_profile device target_profile
              let app2 := match ap.1 with
                | Except.error e => rds.1.set_error_message
                    ("Failed to apply fallback profile: " ++ e) now
                | Except.ok _ => rds.1
              (app2, t1 ++ ap.2)
          let app := step.1.update_stored_device_state
          let app := app.sync_ui_with_device_state
          some (app, step.2)

-- ===========================================================================
-- main.rs: user-initiated set requests
-- ===========================================================================

/-- `RazerGuiApp::set_performance_mode`: set the mode; on success, when the
fan was previously Manual and its configured RPM was read, sleep 50 ms,
reassert Manual, sleep 50 ms, reassert the RPM, each restore failure
posting its own Critical diagnostic; on failure post a Critical message
with the underlying error.  Returns the new app state and write trace. -/
def RazerGuiApp.set_performance_mode (app : RazerGuiApp) (mode : String)
    (now : Nat) : RazerGuiApp × List DevEvent :=
  match string_to_perf_mode mode with
  | none => (app, [])
  | some perf_mode =>
      match app.device with
      | none => (app.set_no_device_message now, [])
      | some device =>
          let fanState := read_current_fan_state device
          let t1 := [DevEvent.setPerfMode perf_mode]
          match device.set_perf_mode perf_mode with
          | Except.ok _ =>
              let app := { app with status :=
                { app.status with performance_mode := mode } }
              let step :=
                if fanState.1 = FanMode.Manual then
                  match fanState.2 with
                  | some rpm =>
                      let t2 := t1 ++ [DevEvent.sleep 50,
                        DevEvent.setFanMode FanMode.Manual]
                      match device.set_fan_mode FanMode.Manual with
                      | Except.ok _ =>
                          let t3 := t2 ++ [DevEvent.sleep 50,
                            DevEvent.setFanRpm rpm]
                          match device.set_fan_rpm rpm with
                          | Except.ok _ =>
                              ({ app with
                                  status := { app.status with
                                    fan_speed := "Manual",
                                    fan_rpm := some rpm },
                                  manual_fan_rpm := rpm }, t3)
                          | Except.error _ =>
                              (app.set_error_message
                                "Failed to restore fan RPM after performance mode change"
                                now, t3)
                      | Except.error _ =>
                          (app.set_error_message
                            "Failed to restore manual fan mode after performance mode change"
                            now, t2)
                  | none => (app, t1)
                else (app, t1)
              let app := step.1.set_optional_status_message
                ("Performance mode set to " ++ mode) now
              (app.update_stored_device_state, step.2)
          | Except.error e =>
              let app := app.set_error_message
                ("Failed to set performance mode: " ++ e) now
              (app.update_stored_device_state, t1)

/-- `RazerGuiApp::set_fan_mode`: set auto or manual fan mode (manual also
writes the RPM, default 2000); failures are posted with
`set_status_message`, i.e. at Normal priority. -/
def RazerGuiApp.set_fan_mode (app : RazerGuiApp) (mode : String)
    (rpm : Option Nat) (now : Nat) : RazerGuiApp × List DevEvent :=
  match app.device with
  | none => (app.set_no_device_message now, [])
  | some device =>
      if mode = "auto" then
        let t := [DevEvent.setFanMode FanMode.Auto]
        match device.set_fan_mode FanMode.Auto with
        | Except.ok _ =>
            let app := { app with status :=
              { app.status with fan_speed := "Auto", fan_rpm := none } }
            (app.set_optional_status_message
              ("Fan set to " ++ mode ++ " mode") now, t)
        | Except.error e =>
            (app.set_status_message ("Failed to set fan: " ++ e) now, t)
      else if mode = "manual" then
        let t := [DevEvent.setFanMode FanMode.Manual]
        match device.set_fan_mode FanMode.Manual with
        | Except.ok _ =>
            let rpm_val := rpm.getD 2000
            let t := t ++ [DevEvent.setFanRpm rpm_val]
            match device.set_fan_rpm rpm_val with
            | Except.ok _ =>
                let app := { app with status := { app.status with
                  fan_speed := "Manual", fan_rpm := some rpm_val } }
                (app.set_optional_status_message
                  ("Fan set to " ++ mode ++ " mode") now, t)
            | Except.error e =>
                (app.set_status_message ("Failed to set fan: " ++ e) now, t)
        | Except.error e =>
            (app.set_status_message ("Failed to set fan: " ++ e) now, t)
      else (app, [])

/-- `RazerGuiApp::set_fan_rpm_only`: set the RPM through
`execute_device_command_simple`; failures are posted as Critical. -/
def RazerGuiApp.set_fan_rpm_only (app : RazerGuiApp) (rpm : Nat)
    (now : Nat) : RazerGuiApp × List DevEvent :=
  let t := match app.device with
    | some _ => [DevEvent.setFanRpm rpm]
    | none => []
  match execute_device_command_simple app.device
      (fun device => device.set_fan_rpm rpm)
      ("Fans RPM set to: " ++ toString rpm) "Failed to set fan RPM" with
  | Except.ok message =>
      let app := { app with status :=
        { app.status with fan_rpm := some rpm } }
      (app.set_optional_status_message message now, t)
  | Except.error message => (app.set_error_message message now, t)

/-- `RazerGuiApp::set_logo_mode`; failures are posted as Critical. -/
def RazerGuiApp.set_logo_mode (app : RazerGuiApp) (mode : String)
    (now : Nat) : RazerGuiApp × List DevEvent :=
  match string_to_logo_mode mode with
  | none => (app, [])
  | some logo_mode =>
      let t := match app.device with
        | some _ => [DevEvent.setLogoMode logo_mode]
        | none => []
      match execute_device_command_simple app.device
          (fun device => device.set_logo_mode logo_mode)
          ("Logo mode set to " ++ mode) "Failed to set logo mode" with
      | Except.ok message =>
          let app := { app with status :=
            { app.status with logo_mode := mode } }
          (app.set_optional_status_message message now, t)
      | Except.error message => (app.set_error_message message now, t)

/-- `RazerGuiApp::set_brightness`; failures are posted as Critical. -/
def RazerGuiApp.set_brightness (app : RazerGuiApp) (brightness : Nat)
    (now : Nat) : RazerGuiApp × List DevEvent :=
  let t := match app.device with
    | some _ => [DevEvent.setKeyboardBrightness brightness]
    | none => []
  match execute_device_command_simple app.device
      (fun device => device.set_keyboard_brightness brightness)
      ("Brightness set to step " ++
        toString (raw_brightness_to_step_index brightness))
      "Failed to set brightness" with
  | Except.ok message =>
      let app := { app with
        status := { app.status with keyboard_brightness := brightness },
        temp_brightness_step := raw_brightness_to_step_index brightness }
      (app.set_optional_status_message message now, t)
  | Except.error message => (app.set_error_message message now, t)

/-- `RazerGuiApp::toggle_lights_always_on`: write the value already shown
in the UI snapshot; a failure posts a Normal-priority message and reverts
the UI flag. -/
def RazerGuiApp.toggle_lights_always_on (app : RazerGuiApp) (now : Nat) :
    RazerGuiApp × List DevEvent :=
  let lights_always_on :=
    if app.status.lights_always_on then LightsAlwaysOn.Enable
    else LightsAlwaysOn.Disable
  match app.device with
  | none => (app.set_no_device_message now, [])
  | some device =>
      let t := [DevEvent.setLightsAlwaysOn lights_always_on]
      match device.set_lights_always_on lights_always_on with
      | Except.ok _ =>
          let app := app.set_optional_status_message
            ("Keyboard Backlight Always On " ++
              (if app.status.lights_always_on then "enabled" else "disabled"))
            now
          (app.update_stored_device_state, t)
      | Except.error e =>
          let app := app.set_status_message
            ("Failed to set lights always on: " ++ e) now
          ({ app with status := { app.status with
              lights_always_on := !app.status.lights_always_on } }, t)

/-- `RazerGuiApp::toggle_battery_care`: write the value already shown in
the UI snapshot; a failure posts a Normal-priority message and reverts
the UI flag. -/
def RazerGuiApp.toggle_battery_care (app : RazerGuiApp) (now : Nat) :
    RazerGuiApp × List DevEvent :=
  let battery_care :=
    if app.status.battery_care then BatteryCare.Enable
    else BatteryCare.Disable
  match app.device with
  | none => (app.set_no_device_message now, [])
  | some device =>
      let t := [DevEvent.setBatteryCare battery_care]
      match device.set_battery_care battery_care with
      | Except.ok _ =>
          let app := app.set_optional_status_message
            ("Battery care " ++
              (if app.status.battery_care then "enabled" else "disabled"))
            now
          (app, t)
      | Except.error e =>
          let app := app.set_status_message
            ("Failed to set battery care: " ++ e) now
          ({ app with status := { app.status with
              battery_care := !app.status.battery_care } }, t)

-- ===========================================================================
-- main.rs: capability probe and scheduler steps
-- ===========================================================================

/-- The enumeration loop of the probe worker in
`RazerGuiApp::start_probe_perf_modes`: a mode equal to the current one is
supported without a write; any other mode is attempted and kept on
success. -/
def probe_worker_loop (dev : Device) (current_mode : PerfMode) :
    List PerfMode × List DevEvent :=
  PerfMode.iter.foldl
    (fun acc m =>
      if m = current_mode then (acc.1 ++ [m], acc.2)
      else
        match dev.set_perf_mode m with
        | Except.ok _ => (acc.1 ++ [m], acc.2 ++ [DevEvent.setPerfMode m])
        | Except.error _ => (acc.1, acc.2 ++ [DevEvent.setPerfMode m]))
    ([], [])

/-- The spawned probe worker: re-detect a fresh handle; an unopenable
device or unreadable mode yields the empty list; otherwise enumerate and
finally best-effort restore the original mode. -/
def probe_worker (detect_result : Option Device) :
    List PerfMode × List DevEvent :=
  match detect_result with
  | none => ([], [])
  | some dev =>
      match dev.get_perf_mode with
      | Except.error _ => ([], [])
      | Except.ok (current_mode, _) =>
          let r := probe_worker_loop dev current_mode
          (r.1, r.2 ++ [DevEvent.setPerfMode current_mode])

/-- `RazerGuiApp::start_probe_perf_modes`: `some (modes, trace)` when a
probe worker is spawned (its eventual delivery and the writes it performs
on the fresh handle), `none` when the preconditions stop it: no device,
metadata-authoritative mode list without `force`, or current mode Custom. -/
def RazerGuiApp.start_probe_perf_modes (app : RazerGuiApp) (force : Bool)
    (fresh_handle : Option Device) : Option (List PerfMode × List DevEvent) :=
  match app.device with
  | none => none
  | some device =>
      if !force && device.info_perf_modes.isSome then none
      else
        match device.get_perf_mode with
        | Except.ok (perf_mode, _) =>
            if perf_mode = PerfMode.Custom then none
            else some (probe_worker fresh_handle)
        | Except.error _ => some (probe_worker fresh_handle)

/-- The probe-result consumption step of `RazerGuiApp::update`: a
delivered list replaces the stored modes only when non-empty. -/
def RazerGuiApp.on_probe_result (app : RazerGuiApp) (modes : List PerfMode)
    (now : Nat) : RazerGuiApp :=
  if modes ≠ [] then
    let app := { app with available_performance_modes := modes }
    app.set_optional_status_message "Detected supported performance modes" now
  else app

/-- The power-check step of `RazerGuiApp::update`: `some b` when the read
power state differs from the stored one (so `auto_switch_profile` runs
with new state `b`), `none` when no switch is triggered. -/
def RazerGuiApp.power_switch_decision (app : RazerGuiApp)
    (os : PowerStatusResult) : Option Bool :=
  match get_power_state os with
  | Except.ok current_ac_power =>
      if current_ac_power ≠ app.ac_power then some current_ac_power else none
  | Except.error _ => none

-- ===========================================================================
-- Derived characterizations used in theorem statements
-- ===========================================================================

/-- A sequence of `add_message` posts folded over a manager. -/
def postAll (mm : MessageManager) (posts : List (UserMessage × Nat)) :
    MessageManager :=
  posts.foldl (fun acc p => acc.add_message p.1 p.2) mm

/-- The brightness-write condition of `apply_profile`: written when the
current reading differs from the profile, and also written unconditionally
when the reading fails. -/
def brightness_write_needed (device : Device)
    (profile : CompleteDeviceState) : Bool :=
  match device.get_keyboard_brightness with
  | Except.ok current_brightness =>
      current_brightness ≠ profile.keyboard_brightness
  | Except.error _ => true

/-- The complete fixed write order of `apply_profile` when nothing fails:
performance mode, logo mode, brightness when needed, lights-always-on,
battery care. -/
def profile_write_order (device : Device) (profile : CompleteDeviceState) :
    List DevEvent :=
  [DevEvent.setPerfMode profile.perf_mode,
   DevEvent.setLogoMode profile.logo_mode] ++
  (if brightness_write_needed device profile then
    [DevEvent.setKeyboardBrightness profile.keyboard_brightness]
  else []) ++
  [DevEvent.setLightsAlwaysOn profile.lights_always_on,
   DevEvent.setBatteryCare profile.battery_care]

-- ===========================================================================
-- Concrete fixtures for witnesses and counterexamples
-- ===========================================================================

/-- A device handle whose every collaborator call succeeds. -/
def okDevice : Device :=
  { info_perf_modes := none
    get_perf_mode := Except.ok (PerfMode.Balanced, FanMode.Auto)
    get_fan_rpm := Except.ok 2000
    get_fan_actual_rpm := Except.ok 2100
    get_logo_mode := Except.ok LogoMode.Static
    get_keyboard_brightness := Except.ok 120
    get_lights_always_on := Except.ok LightsAlwaysOn.Disable
    get_battery_care := Except.ok BatteryCare.Enable
    set_perf_mode := fun _ => Except.ok ()
    set_fan_mode := fun _ => Except.ok ()
    set_fan_rpm := fun _ => Except.ok ()
    set_logo_mode := fun _ => Except.ok ()
    set_keyboard_brightness := fun _ => Except.ok ()
    set_lights_always_on := fun _ => Except.ok ()
    set_battery_care := fun _ => Except.ok () }

/-- A device handle whose every collaborator call fails with `boom`. -/
def failDevice : Device :=
  { info_perf_modes := none
    get_perf_mode := Except.error "boom"
    get_fan_rpm := Except.error "boom"
    get_fan_actual_rpm := Except.error "boom"
    get_logo_mode := Except.error "boom"
    get_keyboard_brightness := Except.error "boom"
    get_lights_always_on := Except.error "boom"
    get_battery_care := Except.error "boom"
    set_perf_mode := fun _ => Except.error "boom"
    set_fan_mode := fun _ => Except.error "boom"
    set_fan_rpm := fun _ => Except.error "boom"
    set_logo_mode := fun _ => Except.error "boom"
    set_keyboard_brightness := fun _ => Except.error "boom"
    set_lights_always_on := fun _ => Except.error "boom"
    set_battery_care := fun _ => Except.error "boom" }

/-- App state with the initial values of `RazerGuiApp::new` over a given
detection outcome. -/
def mkApp (d : Option Device) : RazerGuiApp :=
  { status := DeviceStatus.default
    device := d
    device_state := none
    available_performance_modes := PerfMode.iter
    ac_power := true
    ac_profile := CompleteDeviceState.default
    battery_profile :=
      { CompleteDeviceState.default with perf_mode := PerfMode.Battery }
    message_manager := MessageManager.new
    status_messages := false
    manual_fan_rpm := 2000
    temp_brightness_step := 0
    brightness_slider_active := false }

/-- App over the all-succeeding device. -/
def sampleApp : RazerGuiApp := mkApp (some okDevice)

/-- App over the all-failing device. -/
def failApp : RazerGuiApp := mkApp (some failDevice)

/-- Device currently in Custom performance mode. -/
def customDevice : Device :=
  { okDevice with get_perf_mode := Except.ok (PerfMode.Custom, FanMode.Auto) }

/-- App over the Custom-mode device. -/
def customApp : RazerGuiApp := mkApp (some customDevice)

/-- Device whose descriptor carries an authoritative mode list. -/
def metaDevice : Device :=
  { okDevice with info_perf_modes := some [PerfMode.Balanced] }

/-- App over the metadata-authoritative device. -/
def metaApp : RazerGuiApp := mkApp (some metaDevice)

/-- Device in Manual fan mode whose reads and writes all succeed, with
configured RPM 3000. -/
def manualDevice : Device :=
  { okDevice with
    get_perf_mode := Except.ok (PerfMode.Performance, FanMode.Manual)
    get_fan_rpm := Except.ok 3000 }

/-- App over the Manual-fan device. -/
def manualApp : RazerGuiApp := mkApp (some manualDevice)

/-- Device in Manual fan mode whose configured-RPM read fails. -/
def cx5Device : Device :=
  { okDevice with
    get_perf_mode := Except.ok (PerfMode.Performance, FanMode.Manual)
    get_fan_rpm := Except.error "read failed" }

/-- App over the RPM-read-failing Manual-fan device. -/
def cx5App : RazerGuiApp := mkApp (some cx5Device)

/-- Device whose state reads fail while writes succeed (forces the
fallback full-profile path and the unconditional brightness write). -/
def cx7Device : Device :=
  { okDevice with
    get_perf_mode := Except.error "fail"
    get_keyboard_brightness := Except.error "fail" }

/-- App over the read-failing device. -/
def cx7App : RazerGuiApp := mkApp (some cx7Device)

/-- A Critical message created at t = 0 ms (8 s display duration). -/
def cexCur : UserMessage :=
  { content := "critical message", message_type := MessageType.Error,
    timestamp := 0, duration := 8000 }

/-- Manager currently showing the Critical message, empty backlog. -/
def cexMM : MessageManager :=
  { current_message := some cexCur, message_queue := [] }

/-- The message posted at t = 5000 ms that preempts the Critical one. -/
def cexNew : UserMessage :=
  UserMessage.new "next" MessageType.Info MessagePriority.Normal 5000

/-- A fresh Normal message created at t = 0 ms, used as displaced current. -/
def cwCur : UserMessage :=
  { content := "old", message_type := MessageType.Info,
    timestamp := 0, duration := 3000 }

/-- Manager currently showing `cwCur`, empty backlog. -/
def cwMM : MessageManager :=
  { current_message := some cwCur, message_queue := [] }

/-- Message posted at t = 1000 ms. -/
def cwMsg : UserMessage := status_message "new" 1000

/-- Twelve distinct never-expiring messages posted at t = 0 ms. -/
def cexPosts : List (UserMessage × Nat) :=
  (List.range 12).map (fun i =>
    ({ content := "m" ++ toString i, message_type := MessageType.Info,
       timestamp := 0, duration := 3000 }, 0))

/-- The i-th of the twelve posted messages. -/
def cexMsg (i : Nat) : UserMessage :=
  { content := "m" ++ toString i, message_type := MessageType.Info,
    timestamp := 0, duration := 3000 }

/-- An expired Normal message created at t = 0 ms (expired after 5100 ms). -/
def c9Expired : UserMessage :=
  { content := "stale", message_type := MessageType.Info,
    timestamp := 0, duration := 3000 }

/-- A Critical message created at t = 4000 ms, still fresh at t = 9000 ms. -/
def c9Fresh : UserMessage :=
  { content := "fresh", message_type := MessageType.Error,
    timestamp := 4000, duration := 8000 }

/-- Manager with no current message and a backlog holding, oldest first, a
fresh entry below an expired most-recent entry. -/
def c9MM : MessageManager :=
  { current_message := none, message_queue := [c9Fresh, c9Expired] }

-- ===========================================================================
-- Claim theorems
-- ===========================================================================

/-- C10: `get_power_state` is total and never returns an error; on
non-Windows builds, and on Windows when the OS power-status call fails, it
returns `Ok(true)` (AC power), so a failed or unsupported power read can
never by itself trigger a switch to the battery profile. -/
theorem C10_power_state_total_defaults_to_ac :
    (∀ os : PowerStatusResult, ∃ b : Bool, get_power_state os = Except.ok b) ∧
    get_power_state PowerStatusResult.error = Except.ok true ∧
    get_power_state_non_windows = Except.ok true ∧
    (∀ app : RazerGuiApp,
      app.power_switch_decision PowerStatusResult.error ≠ some false) := by
  refine ⟨?_, rfl, rfl, ?_⟩
  · intro os
    cases os with
    | ok s => exact ⟨s.ACLineStatus == 1, rfl⟩
    | error => exact ⟨true, rfl⟩
  · intro app
    simp only [RazerGuiApp.power_switch_decision, get_power_state]
    split <;> simp_all

/-- C6: an empty probe delivery leaves the whole app state, in particular
the stored available-performance-mode set, unchanged; only a non-empty
delivery replaces the stored set. -/
theorem C6_empty_probe_result_keeps_modes :
    ∀ (app : RazerGuiApp) (now : Nat),
      app.on_probe_result [] now = app ∧
      ∀ modes : List PerfMode, modes ≠ [] →
        (app.on_probe_result modes now).available_performance_modes = modes := by
  intro app now
  constructor
  · simp [RazerGuiApp.on_probe_result]
  · intro modes h
    simp only [RazerGuiApp.on_probe_result, if_pos h,
      RazerGuiApp.set_optional_status_message, RazerGuiApp.set_status_message]
    split <;> rfl

/-- C6 witness: an empty delivery to the sample app changes nothing, and a
non-empty one installs exactly the delivered list. -/
theorem C6_witness :
    sampleApp.on_probe_result [] 0 = sampleApp ∧
    (sampleApp.on_probe_result [PerfMode.Silent] 0).available_performance_modes
      = [PerfMode.Silent] := by
  have h := C6_empty_probe_result_keeps_modes sampleApp 0
  exact ⟨h.1, h.2 [PerfMode.Silent] (by decide)⟩

/-- C4 counterexample: with the device in Custom mode, even a forced probe
spawns no worker at all, so no result list — in particular not the
single-entry list the claim promises — is ever produced. -/
theorem C4_counterexample :
    customDevice.get_perf_mode = Except.ok (PerfMode.Custom, FanMode.Auto) ∧
    customApp.start_probe_perf_modes true (some customDevice) = none := by
  exact ⟨rfl, by decide⟩

/-- C4 as amended: invoking the probe (forced or not) while the device
reports Custom mode spawns no worker — zero set-mode writes, device state
and the stored mode list untouched, and no result list delivered; a forced
re-probe bypasses the metadata-authoritative precondition (it probes even
when the descriptor lists modes) but never the Custom-mode precondition. -/
theorem C4_custom_mode_blocks_probe :
    (∀ (app : RazerGuiApp) (device : Device) (fm : FanMode)
       (force : Bool) (fresh : Option Device),
       app.device = some device →
       device.get_perf_mode = Except.ok (PerfMode.Custom, fm) →
       app.start_probe_perf_modes force fresh = none) ∧
    (∀ (app : RazerGuiApp) (device : Device) (pm : PerfMode) (fm : FanMode)
       (fresh : Option Device),
       app.device = some device →
       device.get_perf_mode = Except.ok (pm, fm) →
       pm ≠ PerfMode.Custom →
       app.start_probe_perf_modes true fresh = some (probe_worker fresh)) := by
  constructor
  · intro app device fm force fresh hdev hmode
    simp only [RazerGuiApp.start_probe_perf_modes, hdev]
    split
    · rfl
    · simp [hmode]
  · intro app device pm fm fresh hdev hmode hne
    simp [RazerGuiApp.start_probe_perf_modes, hdev, hmode, hne]

/-- C4 witness: the Custom-mode device blocks even a forced probe, while a
forced probe on a metadata-authoritative non-Custom device proceeds. -/
theorem C4_witness :
    customApp.start_probe_perf_modes true none = none ∧
    metaApp.start_probe_perf_modes true none = some (probe_worker none) := by
  exact ⟨C4_custom_mode_blocks_probe.1 customApp customDevice FanMode.Auto
      true none rfl rfl,
    C4_custom_mode_blocks_probe.2 metaApp metaDevice PerfMode.Balanced
      FanMode.Auto none rfl rfl (by decide)⟩

/-- Batch-read characterization: results are positional `toOption` images
and diagnostics accumulate one entry per failure after the starting
errors. -/
theorem runReads_spec {α : Type} (r : DeviceStateReader)
    (ops : List (String × Except String α)) :
    (runReads r ops).1 = ops.map (fun p => p.2.toOption) ∧
    (runReads r ops).2.errors = r.errors ++ ops.filterMap (fun p =>
      match p.2 with
      | Except.ok _ => none
      | Except.error e =>
          some ("Failed to read " ++ p.1 ++ ": " ++ e)) := by
  induction ops generalizing r with
  | nil => simp [runReads]
  | cons hd tl ih =>
    obtain ⟨name, op⟩ := hd
    cases op with
    | ok v =>
        simpa [runReads, DeviceStateReader.read, Except.toOption] using ih r
    | error e =>
        have h := ih { errors := r.errors ++
          ["Failed to read " ++ name ++ ": " ++ e] }
        simp [runReads, DeviceStateReader.read, Except.toOption, h]

/-- A failure-shaped `filterMap` has as many entries as there are
failures. -/
theorem filterMap_failure_length {α : Type}
    (ops : List (String × Except String α)) :
    (ops.filterMap (fun p =>
      match p.2 with
      | Except.ok _ => none
      | Except.error e =>
          some ("Failed to read " ++ p.1 ++ ": " ++ e))).length =
    (ops.filter (fun p =>
      match p.2 with
      | Except.ok _ => false
      | Except.error _ => true)).length := by
  induction ops with
  | nil => rfl
  | cons hd tl ih =>
    obtain ⟨name, op⟩ := hd
    cases op <;> simp [ih]

/-- C8: in a batch of N reads of which exactly K fail, every failed read
returns `none` (the caller keeps its default), every successful read
returns its value, and `finish()` returns exactly K diagnostics, each the
string `Failed to read name: err` of one failure, in order; `finish` is a
total projection and cannot fail. -/
theorem C8_reader_tolerates_partial_failure {α : Type}
    (ops : List (String × Except String α)) :
    (runReads DeviceStateReader.new ops).1 =
      ops.map (fun p => p.2.toOption) ∧
    (runReads DeviceStateReader.new ops).2.finish =
      ops.filterMap (fun p =>
        match p.2 with
        | Except.ok _ => none
        | Except.error e =>
            some ("Failed to read " ++ p.1 ++ ": " ++ e)) ∧
    (runReads DeviceStateReader.new ops).2.finish.length =
      (ops.filter (fun p =>
        match p.2 with
        | Except.ok _ => false
        | Except.error _ => true)).length := by
  have h := runReads_spec DeviceStateReader.new ops
  refine ⟨h.1, ?_, ?_⟩
  · simpa [DeviceStateReader.finish, DeviceStateReader.new] using h.2
  · have h2 : (runReads DeviceStateReader.new ops).2.finish =
        ops.filterMap (fun p =>
          match p.2 with
          | Except.ok _ => none
          | Except.error e =>
              some ("Failed to read " ++ p.1 ++ ": " ++ e)) := by
      simpa [DeviceStateReader.finish, DeviceStateReader.new] using h.2
    rw [h2, filterMap_failure_length]

/-- The promotion loop in tuple form: drop the expired leading entries of
the most-recent-first queue view, promote the head of the remainder. -/
theorem promoteFrom_spec (now : Nat) (l : List UserMessage) :
    promoteFrom now l =
      ((l.dropWhile (fun m => m.is_expired now)).head?,
       (l.dropWhile (fun m => m.is_expired now)).tail) := by
  induction l with
  | nil => rfl
  | cons m rest ih =>
    by_cases h : m.is_expired now = true
    · simp [promoteFrom, h, List.dropWhile_cons, ih]
    · simp [promoteFrom, h, List.dropWhile_cons]

/-- The head surviving the expired-dropping loop is the first non-expired
entry. -/
theorem dropWhile_head_eq_find (now : Nat) (l : List UserMessage) :
    (l.dropWhile (fun m => m.is_expired now)).head? =
      l.find? (fun m => !(m.is_expired now)) := by
  induction l with
  | nil => rfl
  | cons m rest ih =>
    by_cases h : m.is_expired now = true
    · simp [List.dropWhile_cons, h, List.find?_cons, ih]
    · simp [List.dropWhile_cons, h, List.find?_cons]

/-- `promote_next_message` on a manager with no current message installs
the most recent non-expired backlog entry (if any) and discards exactly
the more recent expired ones. -/
theorem promote_next_message_spec (mm : MessageManager) (now : Nat)
    (h : mm.current_message = none) :
    (mm.promote_next_message now).current_message =
      mm.message_queue.reverse.find? (fun m => !(m.is_expired now)) ∧
    (mm.promote_next_message now).message_queue =
      ((mm.message_queue.reverse.dropWhile
        (fun m => m.is_expired now)).tail).reverse := by
  unfold MessageManager.promote_next_message
  rw [promoteFrom_spec]
  refine ⟨?_, rfl⟩
  rw [← dropWhile_head_eq_find]
  cases hh : (mm.message_queue.reverse.dropWhile
      (fun m => m.is_expired now)).head? <;> simp [hh, h]

/-- C9: whenever the current message is expired, or absent, a tick
installs the most recently displaced non-expired backlog entry as current
(or none), discards exactly the expired backlog entries encountered while
searching, and never surfaces an expired entry. -/
theorem C9_tick_promotes_most_recent_fresh (mm : MessageManager) (now : Nat)
    (h : mm.current_message = none ∨
      ∃ cur, mm.current_message = some cur ∧ cur.is_expired now = true) :
    (mm.update now).current_message =
      mm.message_queue.reverse.find? (fun m => !(m.is_expired now)) ∧
    (mm.update now).message_queue =
      ((mm.message_queue.reverse.dropWhile
        (fun m => m.is_expired now)).tail).reverse ∧
    ∀ m, (mm.update now).current_message = some m →
      m.is_expired now = false := by
  have main :
      (mm.update now).current_message =
        mm.message_queue.reverse.find? (fun m => !(m.is_expired now)) ∧
      (mm.update now).message_queue =
        ((mm.message_queue.reverse.dropWhile
          (fun m => m.is_expired now)).tail).reverse := by
    rcases h with h | ⟨cur, hc, he⟩
    · have := promote_next_message_spec mm now h
      simpa [MessageManager.update, h] using this
    · have := promote_next_message_spec
        { mm with current_message := none } now rfl
      simpa [MessageManager.update, hc, he] using this
  refine ⟨main.1, main.2, ?_⟩
  intro m hm
  rw [main.1] at hm
  have := List.find?_some hm
  simpa using this

/-- C9 witness: with no current message and a backlog whose most recent
entry is expired, the tick discards the expired entry and promotes the
older fresh one. -/
theorem C9_witness :
    (c9MM.update 9000).current_message = some c9Fresh ∧
    (c9MM.update 9000).message_queue = [] ∧
    c9Fresh.is_expired 9000 = false := by
  have h := C9_tick_promotes_most_recent_fresh c9MM 9000 (Or.inl rfl)
  refine ⟨?_, ?_, by decide⟩
  · rw [h.1]; decide
  · rw [h.2.1]; decide

/-- C2 counterexample: a Critical message displaced 5 s after creation has
not yet begun fading (5 s ≤ its own 8 s display duration) and is not
expired, yet the code drops it from the backlog because preservation is
gated on the hardcoded 3 s bound, not the message duration. -/
theorem C2_counterexample :
    ¬ (cexCur ∈ (cexMM.add_message cexNew 5000).message_queue ↔
       (cexCur.should_fade 5000 = false ∧
        cexCur.is_expired 5000 = false)) := by
  decide

/-- C2 as amended: posting makes the new message current immediately, and
the preempted message is preserved in the backlog iff its elapsed time is
strictly below 3 s — regardless of its own display duration — it is not
expired, and the backlog held at most 9 non-expired entries (otherwise the
post-insertion truncation drops the freshly pushed entry itself). -/
theorem C2_preempt_preserved_iff (mm : MessageManager)
    (msg cur : UserMessage) (now : Nat)
    (hcur : mm.current_message = some cur)
    (hfresh : cur ∉ mm.message_queue) :
    (mm.add_message msg now).current_message = some msg ∧
    (cur ∈ (mm.add_message msg now).message_queue ↔
      (cur.elapsed now < 3000 ∧ cur.is_expired now = false ∧
       (mm.message_queue.filter
         (fun m => !(m.is_expired now))).length ≤ 9)) := by
  constructor
  · rfl
  · simp only [MessageManager.add_message, MessageManager.cleanup_queue,
      MessageManager.push_current, hcur]
    by_cases h1 : cur.elapsed now < 3000
    · by_cases h2 : cur.is_expired now = true
      · have hcond : (decide (cur.elapsed now < 3000) &&
            !(cur.is_expired now)) = false := by
          simp [h2]
        simp only [hcond, if_false, Bool.false_eq_true]
        constructor
        · intro hmem
          exfalso
          rcases (by assumption : cur ∈ _) with _
          have hsub : cur ∈ mm.message_queue := by
            have h3 := hmem
            by_cases hlen : (mm.message_queue.filter
                (fun m => !(m.is_expired now))).length > 10
            · simp only [if_pos hlen] at h3
              exact List.mem_of_mem_filter (List.mem_of_mem_take h3)
            · simp only [if_neg hlen] at h3
              exact List.mem_of_mem_filter h3
          exact hfresh hsub
        · rintro ⟨-, hfalse, -⟩
          rw [h2] at hfalse
          cases hfalse
      · have hexp : cur.is_expired now = false := by
          cases hval : cur.is_expired now
          · rfl
          · exact absurd hval h2
        have hcond : (decide (cur.elapsed now < 3000) &&
            !(cur.is_expired now)) = true := by
          simp [h1, hexp]
        simp only [hcond, if_true]
        have hfsplit : (mm.message_queue ++ [cur]).filter
            (fun m => !(m.is_expired now)) =
            mm.message_queue.filter (fun m => !(m.is_expired now)) ++ [cur] := by
          simp [List.filter_append, hexp]
        rw [hfsplit]
        set F := mm.message_queue.filter (fun m => !(m.is_expired now)) with hF
        by_cases hlen : F.length ≤ 9
        · have hlen2 : ¬ ((F ++ [cur]).length > 10) := by
            simp only [List.length_append, List.length_singleton]
            omega
          simp only [if_neg hlen2]
          simp [h1, hexp, hlen]
        · have hlen2 : (F ++ [cur]).length > 10 := by
            simp only [List.length_append, List.length_singleton]
            omega
          simp only [if_pos hlen2]
          have htake : (F ++ [cur]).take 10 = F.take 10 := by
            rw [List.take_append_eq_append_take]
            have : 10 - F.length = 0 := by omega
            simp [this]
          rw [htake]
          constructor
          · intro hmem
            exfalso
            have : cur ∈ mm.message_queue :=
              List.mem_of_mem_filter (List.mem_of_mem_take hmem)
            exact hfresh this
          · rintro ⟨-, -, hle⟩
            exact absurd hle hlen
    · have hcond : (decide (cur.elapsed now < 3000) &&
          !(cur.is_expired now)) = false := by
        simp [h1]
      simp only [hcond, if_false, Bool.false_eq_true]
      constructor
      · intro hmem
        exfalso
        have hsub : cur ∈ mm.message_queue := by
          by_cases hlen : (mm.message_queue.filter
              (fun m => !(m.is_expired now))).length > 10
          · simp only [if_pos hlen] at hmem
            exact List.mem_of_mem_filter (List.mem_of_mem_take hmem)
          · simp only [if_neg hlen] at hmem
            exact List.mem_of_mem_filter hmem
        exact hfresh hsub
      · rintro ⟨hlt, -, -⟩
        exact absurd hlt h1

/-- C2 witness: a 1 s old, unexpired displaced message with an empty
backlog is preserved, and the new message is current immediately. -/
theorem C2_witness :
    (cwMM.add_message cwMsg 1000).current_message = some cwMsg ∧
    cwCur ∈ (cwMM.add_message cwMsg 1000).message_queue := by
  have h := C2_preempt_preserved_iff cwMM cwMsg cwCur 1000 rfl (by decide)
  exact ⟨h.1, h.2.mpr (by decide)⟩

/-- C3 counterexample: after twelve posts of distinct never-expiring
messages, the backlog keeps the oldest entries (message 0) and silently
drops the newest displaced entry (message 10), contradicting the claim
that the oldest entries are discarded first. -/
theorem C3_counterexample :
    cexMsg 0 ∈ (postAll MessageManager.new cexPosts).message_queue ∧
    cexMsg 10 ∉ (postAll MessageManager.new cexPosts).message_queue := by
  decide

/-- Any single post leaves at most ten backlog entries. -/
theorem add_message_length_le (mm : MessageManager) (msg : UserMessage)
    (now : Nat) : (mm.add_message msg now).message_queue.length ≤ 10 := by
  simp only [MessageManager.add_message, MessageManager.cleanup_queue]
  split
  · simp
  · omega

/-- C3 as amended: after any sequence of posts the backlog length never
exceeds 10, and when the bound would be exceeded the queue keeps its first
(oldest) ten surviving entries — so the newest entries, including possibly
the just-displaced current message, are the ones discarded. -/
theorem C3_backlog_bounded_keeps_oldest :
    (∀ posts : List (UserMessage × Nat),
      (postAll MessageManager.new posts).message_queue.length ≤ 10) ∧
    (∀ (mm : MessageManager) (msg : UserMessage) (now : Nat),
      (mm.add_message msg now).message_queue =
        ((mm.push_current now).message_queue.filter
          (fun m => !(m.is_expired now))).take 10) := by
  constructor
  · have step : ∀ (posts : List (UserMessage × Nat)) (mm : MessageManager),
        mm.message_queue.length ≤ 10 →
        (postAll mm posts).message_queue.length ≤ 10 := by
      intro posts
      induction posts with
      | nil => intro mm h; simpa [postAll] using h
      | cons p rest ih =>
          intro mm h
          have h2 := add_message_length_le mm p.1 p.2
          simpa [postAll] using ih (mm.add_message p.1 p.2) h2
    intro posts
    exact step posts MessageManager.new (by simp [MessageManager.new])
  · intro mm msg now
    simp only [MessageManager.add_message, MessageManager.cleanup_queue]
    split
    · rfl
    · rename_i hlen
      rw [List.take_of_length_le]
      omega

/-- Posting always installs the posted message as current. -/
theorem add_message_current (mm : MessageManager) (msg : UserMessage)
    (now : Nat) : (mm.add_message msg now).current_message = some msg := rfl

/-- Refreshing the stored baseline touches neither the notification
manager, the status snapshot, nor the manual RPM memory. -/
theorem update_stored_device_state_frame (app : RazerGuiApp) :
    app.update_stored_device_state.message_manager = app.message_manager ∧
    app.update_stored_device_state.status = app.status ∧
    app.update_stored_device_state.manual_fan_rpm = app.manual_fan_rpm := by
  unfold RazerGuiApp.update_stored_device_state
  split
  · split <;> exact ⟨rfl, rfl, rfl⟩
  · exact ⟨rfl, rfl, rfl⟩

/-- C1 counterexample: a failing fan-mode set is surfaced through
`set_status_message`, i.e. as an Info message with the 3 s Normal display
duration, not as the Critical notification the claim promises. -/
theorem C1_counterexample :
    (failApp.set_fan_mode "auto" none 0).1.message_manager.current_message =
      some (status_message "Failed to set fan: boom" 0) ∧
    (status_message "Failed to set fan: boom" 0).duration = 3000 ∧
    (status_message "Failed to set fan: boom" 0).message_type =
      MessageType.Info ∧
    status_message "Failed to set fan: boom" 0 ≠
      error_message "Failed to set fan: boom" 0 := by
  exact ⟨by decide, rfl, rfl, by decide⟩

/-- C1 as amended: failures of the set-performance-mode, set-fan-RPM,
set-logo-mode and set-brightness requests are surfaced as Critical
notifications containing the underlying error, while failures of the
set-fan-mode, toggle-lights-always-on and toggle-battery-care requests are
surfaced as Normal-priority status notifications containing the
underlying error. -/
theorem C1_set_request_failures_notified
    (app : RazerGuiApp) (device : Device) (now : Nat)
    (hdev : app.device = some device) :
    (∀ mode pm e, string_to_perf_mode mode = some pm →
      device.set_perf_mode pm = Except.error e →
      (app.set_performance_mode mode now).1.message_manager.current_message =
        some (error_message ("Failed to set performance mode: " ++ e) now)) ∧
    (∀ rpm e, device.set_fan_rpm rpm = Except.error e →
      (app.set_fan_rpm_only rpm now).1.message_manager.current_message =
        some (error_message ("Failed to set fan RPM: " ++ e) now)) ∧
    (∀ mode lm e, string_to_logo_mode mode = some lm →
      device.set_logo_mode lm = Except.error e →
      (app.set_logo_mode mode now).1.message_manager.current_message =
        some (error_message ("Failed to set logo mode: " ++ e) now)) ∧
    (∀ b e, device.set_keyboard_brightness b = Except.error e →
      (app.set_brightness b now).1.message_manager.current_message =
        some (error_message ("Failed to set brightness: " ++ e) now)) ∧
    (∀ e, device.set_fan_mode FanMode.Auto = Except.error e →
      (app.set_fan_mode "auto" none now).1.message_manager.current_message =
        some (status_message ("Failed to set fan: " ++ e) now)) ∧
    (∀ e rpm, device.set_fan_mode FanMode.Manual = Except.error e →
      (app.set_fan_mode "manual" rpm now).1.message_manager.current_message =
        some (status_message ("Failed to set fan: " ++ e) now)) ∧
    (∀ e, device.set_lights_always_on
        (if app.status.lights_always_on then LightsAlwaysOn.Enable
         else LightsAlwaysOn.Disable) = Except.error e →
      (app.toggle_lights_always_on now).1.message_manager.current_message =
        some (status_message ("Failed to set lights always on: " ++ e) now)) ∧
    (∀ e, device.set_battery_care
        (if app.status.battery_care then BatteryCare.Enable
         else BatteryCare.Disable) = Except.error e →
      (app.toggle_battery_care now).1.message_manager.current_message =
        some (status_message ("Failed to set battery care: " ++ e) now)) := by
  refine ⟨?_, ?_, ?_, ?_, ?_, ?_, ?_, ?_⟩
  · intro mode pm e hmode herr
    simp only [RazerGuiApp.set_performance_mode, hmode, hdev, herr]
    rw [(update_stored_device_state_frame _).1]
    rfl
  · intro rpm e herr
    simp only [RazerGuiApp.set_fan_rpm_only, execute_device_command_simple,
      hdev, herr]
    rfl
  · intro mode lm e hmode herr
    simp only [RazerGuiApp.set_logo_mode, hmode,
      execute_device_command_simple, hdev, herr]
    rfl
  · intro b e herr
    simp only [RazerGuiApp.set_brightness, execute_device_command_simple,
      hdev, herr]
    rfl
  · intro e herr
    simp only [RazerGuiApp.set_fan_mode, hdev, herr]
    rfl
  · intro e rpm herr
    simp only [RazerGuiApp.set_fan_mode, hdev, herr]
    rfl
  · intro e herr
    simp only [RazerGuiApp.toggle_lights_always_on, hdev, herr]
    rfl
  · intro e herr
    simp only [RazerGuiApp.toggle_battery_care, hdev, herr]
    rfl

/-- C1 witness: on the all-failing device, a performance-mode failure is
Critical while a fan-mode failure is a Normal status message. -/
theorem C1_witness :
    (failApp.set_performance_mode "Silent" 0).1.message_manager.current_message
      = some (error_message "Failed to set performance mode: boom" 0) ∧
    (failApp.set_fan_mode "auto" none 0).1.message_manager.current_message
      = some (status_message "Failed to set fan: boom" 0) := by
  have h := C1_set_request_failures_notified failApp failDevice 0 rfl
  exact ⟨h.1 "Silent" PerfMode.Silent "boom" rfl rfl,
    h.2.2.2.2.1 "boom" rfl⟩

/-- C5 counterexample: successful mode switch with the fan previously in
Manual mode, but the configured-RPM read failing — no settle delay, no
Manual reassert, no RPM reassert, and no diagnostic is posted at all. -/
theorem C5_counterexample :
    read_current_fan_state cx5Device = (FanMode.Manual, none) ∧
    cx5Device.set_perf_mode PerfMode.Silent = Except.ok () ∧
    (cx5App.set_performance_mode "Silent" 0).2 =
      [DevEvent.setPerfMode PerfMode.Silent] ∧
    (cx5App.set_performance_mode "Silent" 0).1.message_manager =
      cx5App.message_manager := by
  exact ⟨rfl, rfl, by decide, by decide⟩

/-- C5 as amended: after a successful performance-mode set, when the fan
was previously Manual and its configured RPM was successfully read, the
scheduler sleeps 50 ms, reasserts Manual mode, sleeps 50 ms and reasserts
the RPM; each restore step posts its own distinct Critical diagnostic on
failure, and on full success the fan status fields are restored.  (When
the configured-RPM read fails, no restoration is attempted — see the
counterexample.) -/
theorem C5_mode_switch_fan_restore
    (app : RazerGuiApp) (device : Device) (mode : String) (pm pm0 : PerfMode)
    (r : Nat) (now : Nat)
    (hdev : app.device = some device)
    (hmode : string_to_perf_mode mode = some pm)
    (hget : device.get_perf_mode = Except.ok (pm0, FanMode.Manual))
    (hrpm : device.get_fan_rpm = Except.ok r)
    (hset : device.set_perf_mode pm = Except.ok ())
    (hquiet : app.status_messages = false) :
    (∀ e, device.set_fan_mode FanMode.Manual = Except.error e →
      (app.set_performance_mode mode now).2 =
        [DevEvent.setPerfMode pm, DevEvent.sleep 50,
         DevEvent.setFanMode FanMode.Manual] ∧
      (app.set_performance_mode mode now).1.message_manager.current_message =
        some (error_message
          "Failed to restore manual fan mode after performance mode change"
          now)) ∧
    (device.set_fan_mode FanMode.Manual = Except.ok () →
      (∀ e, device.set_fan_rpm r = Except.error e →
        (app.set_performance_mode mode now).2 =
          [DevEvent.setPerfMode pm, DevEvent.sleep 50,
           DevEvent.setFanMode FanMode.Manual, DevEvent.sleep 50,
           DevEvent.setFanRpm r] ∧
        (app.set_performance_mode mode now).1.message_manager.current_message =
          some (error_message
            "Failed to restore fan RPM after performance mode change" now)) ∧
      (device.set_fan_rpm r = Except.ok () →
        (app.set_performance_mode mode now).2 =
          [DevEvent.setPerfMode pm, DevEvent.sleep 50,
           DevEvent.setFanMode FanMode.Manual, DevEvent.sleep 50,
           DevEvent.setFanRpm r] ∧
        (app.set_performance_mode mode now).1.status.fan_speed = "Manual" ∧
        (app.set_performance_mode mode now).1.status.fan_rpm = some r ∧
        (app.set_performance_mode mode now).1.manual_fan_rpm = r)) ∧
    ("Failed to restore manual fan mode after performance mode change" ≠
     "Failed to restore fan RPM after performance mode change") := by
  have hfan : read_current_fan_state device = (FanMode.Manual, some r) := by
    simp [read_current_fan_state, hget, get_fan_rpm_set, hrpm]
  refine ⟨?_, ?_, by decide⟩
  · intro e herr
    simp only [RazerGuiApp.set_performance_mode, hmode, hdev, hfan, hset,
      herr, RazerGuiApp.set_optional_status_message]
    constructor
    · simp [update_stored_device_state_frame]
    · rw [(update_stored_device_state_frame _).1]
      simp only [RazerGuiApp.set_error_message, hquiet,
        RazerGuiApp.set_status_message]
      exact add_message_current _ _ _
  · intro hok
    constructor
    · intro e herr
      simp only [RazerGuiApp.set_performance_mode, hmode, hdev, hfan, hset,
        hok, herr, RazerGuiApp.set_optional_status_message]
      constructor
      · simp [update_stored_device_state_frame]
      · rw [(update_stored_device_state_frame _).1]
        simp only [RazerGuiApp.set_error_message, hquiet,
          RazerGuiApp.set_status_message]
        exact add_message_current _ _ _
    · intro hok2
      simp only [RazerGuiApp.set_performance_mode, hmode, hdev, hfan, hset,
        hok, hok2, RazerGuiApp.set_optional_status_message]
      refine ⟨?_, ?_, ?_, ?_⟩
      · simp [update_stored_device_state_frame]
      · rw [(update_stored_device_state_frame _).2.1]
        simp [hquiet]
      · rw [(update_stored_device_state_frame _).2.1]
        simp [hquiet]
      · rw [(update_stored_device_state_frame _).2.2]
        simp [hquiet]

/-- C5 witness: on the Manual-fan device with every call succeeding, the
switch performs the full settle-reassert sequence and restores the fan
status. -/
theorem C5_witness :
    (manualApp.set_performance_mode "Silent" 0).2 =
      [DevEvent.setPerfMode PerfMode.Silent, DevEvent.sleep 50,
       DevEvent.setFanMode FanMode.Manual, DevEvent.sleep 50,
       DevEvent.setFanRpm 3000] ∧
    (manualApp.set_performance_mode "Silent" 0).1.status.fan_speed =
      "Manual" ∧
    (manualApp.set_performance_mode "Silent" 0).1.manual_fan_rpm = 3000 := by
  have h := C5_mode_switch_fan_restore manualApp manualDevice "Silent"
    PerfMode.Silent PerfMode.Performance 3000 0 rfl rfl rfl rfl rfl rfl
  have h2 := (h.2.1 rfl).2 rfl
  exact ⟨h2.1, h2.2.1, h2.2.2.2⟩

/-- C7 counterexample: when the current-brightness read fails,
`apply_profile` writes the profile brightness unconditionally even though
no current reading exists to differ from, contradicting the
brightness-only-if-different clause. -/
theorem C7_counterexample :
    cx7Device.get_keyboard_brightness = Except.error "fail" ∧
    (apply_profile cx7Device CompleteDeviceState.default).1 =
      Except.ok () ∧
    DevEvent.setKeyboardBrightness 50 ∈
      (apply_profile cx7Device CompleteDeviceState.default).2 := by
  exact ⟨rfl, rfl, by decide⟩

/-- C7 as amended: on a power transition the auto-switcher first writes
only the selected profile performance mode; only when the subsequent full
read fails does it additionally apply the complete profile, whose writes
always follow the fixed order performance mode, logo mode, keyboard
brightness (when it differs from the current reading, or unconditionally
when that reading fails), lights-always-on, battery care — every trace is
the initial part of that order, and the whole order when nothing fails. -/
theorem C7_auto_switch_profile_order
    (app : RazerGuiApp) (device : Device) (profile : CompleteDeviceState)
    (now : Nat)
    (hdev : app.device = some device)
    (hprof : profile =
      if app.ac_power then app.ac_profile else app.battery_profile)
    (hset : device.set_perf_mode profile.perf_mode = Except.ok ()) :
    (∀ pm fm, device.get_perf_mode = Except.ok (pm, fm) →
      Option.map (fun x => x.2) (app.auto_switch_profile now) =
        some [DevEvent.setPerfMode profile.perf_mode]) ∧
    (∀ e, device.get_perf_mode = Except.error e →
      Option.map (fun x => x.2) (app.auto_switch_profile now) =
        some ([DevEvent.setPerfMode profile.perf_mode] ++
          (apply_profile device profile).2)) ∧
    (∀ (d : Device) (p : CompleteDeviceState),
      (apply_profile d p).2 =
        (profile_write_order d p).take (apply_profile d p).2.length ∧
      ((apply_profile d p).1 = Except.ok () →
        (apply_profile d p).2 = profile_write_order d p)) := by
  refine ⟨?_, ?_, ?_⟩
  · intro pm fm hget
    simp only [RazerGuiApp.auto_switch_profile, hdev, ← hprof, hset,
      RazerGuiApp.read_device_status, hget]
    simp
  · intro e hget
    simp only [RazerGuiApp.auto_switch_profile, hdev, ← hprof, hset,
      RazerGuiApp.read_device_status, hget]
    simp
  · intro d p
    cases h1 : d.set_perf_mode p.perf_mode with
    | error e1 =>
        constructor
        · simp [apply_profile, h1, profile_write_order]
        · intro hok
          simp [apply_profile, h1] at hok
    | ok u1 =>
      cases h2 : d.set_logo_mode p.logo_mode with
      | error e2 =>
          constructor
          · simp [apply_profile, h1, h2, profile_write_order]
          · intro hok
            simp [apply_profile, h1, h2] at hok
      | ok u2 =>
        cases h3 : d.get_keyboard_brightness with
        | ok cur =>
            by_cases hne : cur ≠ p.keyboard_brightness
            · cases h4 : d.set_keyboard_brightness p.keyboard_brightness with
              | error e4 =>
                  constructor
                  · simp [apply_profile, h1, h2, h3, hne, h4,
                      profile_write_order, brightness_write_needed]
                  · intro hok
                    simp [apply_profile, h1, h2, h3, hne, h4] at hok
              | ok u4 =>
                cases h5 : d.set_lights_always_on p.lights_always_on with
                | error e5 =>
                    constructor
                    · simp [apply_profile, h1, h2, h3, hne, h4, h5,
                        profile_write_order, brightness_write_needed]
                    · intro hok
                      simp [apply_profile, h1, h2, h3, hne, h4, h5] at hok
                | ok u5 =>
                  cases h6 : d.set_battery_care p.battery_care with
                  | error e6 =>
                      constructor
                      · simp [apply_profile, h1, h2, h3, hne, h4, h5, h6,
                          profile_write_order, brightness_write_needed]
                      · intro hok
                        simp [apply_profile, h1, h2, h3, hne, h4, h5, h6]
                          at hok
                  | ok u6 =>
                      constructor
                      · simp [apply_profile, h1, h2, h3, hne, h4, h5, h6,
                          profile_write_order, brightness_write_needed]
                      · intro hok
                        simp [apply_profile, h1, h2, h3, hne, h4, h5, h6,
                          profile_write_order, brightness_write_needed]
            · have heq : cur = p.keyboard_brightness := by
                by_contra hc
                exact hne hc
              cases h5 : d.set_lights_always_on p.lights_always_on with
              | error e5 =>
                  constructor
                  · simp [apply_profile, h1, h2, h3, heq, h5,
                      profile_write_order, brightness_write_needed]
                  · intro hok
                    simp [apply_profile, h1, h2, h3, heq, h5] at hok
              | ok u5 =>
                cases h6 : d.set_battery_care p.battery_care with
                | error e6 =>
                    constructor
                    · simp [apply_profile, h1, h2, h3, heq, h5, h6,
                        profile_write_order, brightness_write_needed]
                    · intro hok
                      simp [apply_profile, h1, h2, h3, heq, h5, h6] at hok
                | ok u6 =>
                    constructor
                    · simp [apply_profile, h1, h2, h3, heq, h5, h6,
                        profile_write_order, brightness_write_needed]
                    · intro hok
                      simp [apply_profile, h1, h2, h3, heq, h5, h6,
                        profile_write_order, brightness_write_needed]
        | error e3 =>
          cases h4 : d.set_keyboard_brightness p.keyboard_brightness with
          | error e4 =>
              constructor
              · simp [apply_profile, h1, h2, h3, h4,
                  profile_write_order, brightness_write_needed]
              · intro hok
                simp [apply_profile, h1, h2, h3, h4] at hok
          | ok u4 =>
            cases h5 : d.set_lights_always_on p.lights_always_on with
            | error e5 =>
                constructor
                · simp [apply_profile, h1, h2, h3, h4, h5,
                    profile_write_order, brightness_write_needed]
                · intro hok
                  simp [apply_profile, h1, h2, h3, h4, h5] at hok
            | ok u5 =>
              cases h6 : d.set_battery_care p.battery_care with
              | error e6 =>
                  constructor
                  · simp [apply_profile, h1, h2, h3, h4, h5, h6,
                      profile_write_order, brightness_write_needed]
                  · intro hok
                    simp [apply_profile, h1, h2, h3, h4, h5, h6] at hok
              | ok u6 =>
                  constructor
                  · simp [apply_profile, h1, h2, h3, h4, h5, h6,
                      profile_write_order, brightness_write_needed]
                  · intro hok
                    simp [apply_profile, h1, h2, h3, h4, h5, h6,
                      profile_write_order, brightness_write_needed]

/-- C7 witness: with a readable device only the performance mode is
written, and on the read-failing device the full profile application
performs every write in the fixed order. -/
theorem C7_witness :
    Option.map (fun x => x.2) (sampleApp.auto_switch_profile 0) =
      some [DevEvent.setPerfMode PerfMode.Performance] ∧
    (apply_profile cx7Device CompleteDeviceState.default).2 =
      profile_write_order cx7Device CompleteDeviceState.default := by
  have h := C7_auto_switch_profile_order sampleApp okDevice
    CompleteDeviceState.default 0 rfl rfl rfl
  exact ⟨h.1 PerfMode.Balanced FanMode.Auto rfl,
    (h.2.2 cx7Device CompleteDeviceState.default).2 rfl⟩
